import Mathlib

/-!
# Verification of the Tuya BLE integration (devices.py / sensor.py)

Shallow embedding of `custom_components/tuya_ble/devices.py` and
`custom_components/tuya_ble/sensor.py`.  Python dicts become association
lists looked up with `List.lookup`, `dict.get` misses and Python `None`
become `Option`, Python exceptions become `Option` results (`none` =
exception raised), and the stateful entity/coordinator callbacks become
functions from an explicit state to a new state together with the list of
bus events fired and a flag recording whether host state was written.
-/

namespace TuyaBLE

/-- Python runtime values as they occur in datapoint payloads: `None`,
`bool`, `int`, `float` (modelled as a rational number) and `str`. -/
inductive PyVal
  | pNone
  | pBool (b : Bool)
  | pInt (n : Int)
  | pFloat (q : Rat)
  | pStr (s : String)
  deriving DecidableEq

/-- Truncation of a rational toward zero, which is what Python's `int()`
does to a `float` (`Int.tdiv` is T-division and `q.den` is positive). -/
def ratTrunc (q : Rat) : Int := q.num.tdiv (Int.ofNat q.den)

/-- Python `int(x)` coercion: succeeds on bools, ints, floats (truncating
toward zero) and integer-literal strings; raises `TypeError`/`ValueError`
(modelled as `none`) on `None` and non-numeric strings. -/
def pyToInt : PyVal → Option Int
  | .pNone => none
  | .pBool b => some (cond b 1 0)
  | .pInt n => some n
  | .pFloat q => some (ratTrunc q)
  | .pStr s => s.toInt?

/-- Python `isinstance(x, (int, float))` view of a value as a number.
Note that `bool` is a subclass of `int` in Python, so `True`/`False`
count as the numbers 1/0 here, exactly as in CPython. -/
def pyNum : PyVal → Option Rat
  | .pBool b => some (cond b 1 0)
  | .pInt n => some (n : Rat)
  | .pFloat q => some q
  | _ => none

/-- Python `str(x)`.  Only `pStr` is reachable where the sensor code calls
`str(value)` (numbers and `None` are filtered out earlier), so the float
rendering need not reproduce CPython's float repr. -/
def pyStr : PyVal → String
  | .pNone => "None"
  | .pBool b => cond b "True" "False"
  | .pInt n => toString n
  | .pFloat q => toString q
  | .pStr s => s

/-- Datapoint value types of the external `tuya_ble` library
(`TuyaBLEDataPointType`). -/
inductive TuyaBLEDataPointType
  | DT_RAW
  | DT_BOOL
  | DT_VALUE
  | DT_STRING
  | DT_ENUM
  | DT_BITMAP
  deriving DecidableEq

/-- Datapoint as exposed by the external library's keyed datapoint table:
an id, a value type, a value, an optional update timestamp (the lock
sensor reads it with `getattr(dp, 'timestamp', None)`, so it may be
absent) and the `changed_by_device` flag used for bus events. -/
structure TuyaBLEDataPoint where
  id : Int
  type : TuyaBLEDataPointType
  value : PyVal
  timestamp : Option Int := none
  changed_by_device : Bool := false
  deriving DecidableEq

/-- Device object of the external library, restricted to the identity
fields and the keyed datapoint table that the verified code reads.  The
table maps a datapoint id to `none` when the id is absent (`has_id`
false) or the stored datapoint is `None`. -/
structure TuyaBLEDevice where
  address : String
  device_id : String
  category : String
  product_id : String
  datapoints : Int → Option TuyaBLEDataPoint

/-- Modelled from the spec: `const.py` of this repository is not under
`src/`.  The default manufacturer string; its exact value affects no
verified property. -/
def DEVICE_DEF_MANUFACTURER : String := "Tuya"

/-- Fingerbot capability descriptor (`TuyaBLEFingerbotInfo`). -/
structure TuyaBLEFingerbotInfo where
  switch : Int
  mode : Int
  up_position : Int
  down_position : Int
  hold_time : Int
  reverse_positions : Int
  manual_control : Int := 0
  program : Int := 0
  deriving DecidableEq

/-- Lock capability descriptor (`TuyaBLELockInfo`). -/
structure TuyaBLELockInfo where
  alarm_lock : Int
  unlock_ble : Int
  unlock_fingerprint : Int
  unlock_password : Int
  deriving DecidableEq

/-- Product descriptor (`TuyaBLEProductInfo`). -/
structure TuyaBLEProductInfo where
  name : String
  manufacturer : String := DEVICE_DEF_MANUFACTURER
  fingerbot : Option TuyaBLEFingerbotInfo := none
  lock : Option TuyaBLELockInfo := none
  deriving DecidableEq

/-- Category entry of the catalog (`TuyaBLECategoryInfo`): a products
dict and an optional category-wide fallback descriptor. -/
structure TuyaBLECategoryInfo where
  products : List (String × TuyaBLEProductInfo)
  info : Option TuyaBLEProductInfo := none
  deriving DecidableEq

/-- Product entry shared via `dict.fromkeys` by the plain smart locks. -/
def smart_lock_info : TuyaBLEProductInfo := { name := "Smart Lock" }

/-- Product entry of the `mqc2hevy` smart lock, the only one carrying a
lock descriptor. -/
def smart_lock_mqc2hevy_info : TuyaBLEProductInfo :=
  { name := "Smart Lock"
    lock := some
      { alarm_lock := 21
        unlock_ble := 19
        unlock_fingerprint := 12
        unlock_password := 13 } }

/-- Fingerbot descriptor shared by the two CubeTouch products. -/
def cubetouch_fingerbot : TuyaBLEFingerbotInfo :=
  { switch := 1
    mode := 2
    up_position := 5
    down_position := 6
    hold_time := 3
    reverse_positions := 4 }

/-- Product entry shared via `dict.fromkeys` by the Fingerbot Plus ids. -/
def fingerbot_plus_info : TuyaBLEProductInfo :=
  { name := "Fingerbot Plus"
    fingerbot := some
      { switch := 2
        mode := 8
        up_position := 15
        down_position := 9
        hold_time := 10
        reverse_positions := 11
        manual_control := 17
        program := 121 } }

/-- Product entry shared via `dict.fromkeys` by the plain Fingerbot ids. -/
def fingerbot_info : TuyaBLEProductInfo :=
  { name := "Fingerbot"
    fingerbot := some
      { switch := 2
        mode := 8
        up_position := 15
        down_position := 9
        hold_time := 10
        reverse_positions := 11
        program := 121 } }

/-- The static product catalog `devices_database` of `devices.py`, with
each `dict.fromkeys` group expanded to one entry per key.  Insertion
order is preserved; all keys are distinct, so `List.lookup` agrees with
Python `dict.get`. -/
def devices_database : List (String × TuyaBLECategoryInfo) :=
  [ ("co2bj",
      { products := [("59s19z5m", { name := "CO2 Detector" })] }),
    ("ms",
      { products :=
          [ ("ludzroix", smart_lock_info),
            ("isk2p555", smart_lock_info),
            ("yy2bmcoh", smart_lock_info),
            ("mqc2hevy", smart_lock_mqc2hevy_info) ] }),
    ("szjqr",
      { products :=
          [ ("3yqdo5yt",
              { name := "CUBETOUCH 1s", fingerbot := some cubetouch_fingerbot }),
            ("xhf790if",
              { name := "CubeTouch II", fingerbot := some cubetouch_fingerbot }),
            ("blliqpsj", fingerbot_plus_info),
            ("ndvkgsrm", fingerbot_plus_info),
            ("yiihr7zh", fingerbot_plus_info),
            ("neq16kgd", fingerbot_plus_info),
            ("ltak7e1p", fingerbot_info),
            ("y6kttvd6", fingerbot_info),
            ("yrnk7mnn", fingerbot_info),
            ("nvr2rocq", fingerbot_info),
            ("bnt7wajf", fingerbot_info),
            ("rvdceqjh", fingerbot_info),
            ("5xhbk964", fingerbot_info) ] }),
    ("wk",
      { products :=
          [ ("drlajpqc", { name := "Thermostatic Radiator Valve" }),
            ("nhj2j7su", { name := "Thermostatic Radiator Valve" }) ] }),
    ("wsdcg",
      { products := [("ojzlzzsw", { name := "Soil moisture sensor" })] }),
    ("znhsb",
      { products := [("cdlandip", { name := "Smart water bottle" })] }),
    ("ggq",
      { products :=
          [ ("6pahkcau", { name := "Irrigation computer" }),
            ("hfgdqhho", { name := "Irrigation computer" }) ] }),
    ("jtmspro",
      { products := [("hc7n0urm", { name := "A1 Ultra-JM" })] }) ]

/-- `get_product_info_by_ids` of `devices.py`: look the category up in
the catalog; inside it, look the product up, falling back to the
category-wide `info`; an unknown category yields `None`. -/
def get_product_info_by_ids (category product_id : String) :
    Option TuyaBLEProductInfo :=
  match devices_database.lookup category with
  | some category_info =>
    match category_info.products.lookup product_id with
    | some product_info => some product_info
    | none => category_info.info
  | none => none

/-- `get_device_product_info` of `devices.py`. -/
def get_device_product_info (device : TuyaBLEDevice) :
    Option TuyaBLEProductInfo :=
  get_product_info_by_ids device.category device.product_id

/-- Sensor device classes of the host framework used by the verified
sensor mappings. -/
inductive SensorDeviceClass
  | BATTERY
  | ENUM
  | CO2
  | TEMPERATURE
  | HUMIDITY
  | MOISTURE
  | WATER
  | DURATION
  | SIGNAL_STRENGTH
  deriving DecidableEq

/-- Entity description restricted to the fields the sensor update
callbacks read: `device_class` (battery truncation), `options` (enum
labels) and `icon`; `key` identifies the description. -/
structure SensorEntityDescription where
  key : String
  device_class : Option SensorDeviceClass := none
  options : Option (List String) := none
  icon : Option String := none
  deriving DecidableEq

/-- Mutable attributes of a `TuyaBLESensor` entity touched by its
coordinator update callback (`_attr_native_value`, `_attr_icon`). -/
structure TuyaBLESensorState where
  native_value : Option PyVal := none
  icon : Option String := none
  deriving DecidableEq

/-- `TuyaBLESensorMapping` of sensor.py.  The `getter` mutates the
sensor, so it is modelled as a function from the device's datapoint
table and the current attribute state to the new attribute state.
`is_available` is only read by the entity-platform setup, which is not
part of the verified callbacks. -/
structure TuyaBLESensorMapping where
  dp_id : Int
  description : SensorEntityDescription
  force_add : Bool := true
  dp_type : Option TuyaBLEDataPointType := none
  getter :
    Option ((Int → Option TuyaBLEDataPoint) → TuyaBLESensorState →
      TuyaBLESensorState) := none
  coefficient : Rat := 1
  icons : Option (List String) := none
  is_available : Option (TuyaBLEDevice → TuyaBLEProductInfo → Bool) := none

/-- `battery_enum_getter` of sensor.py: read datapoint 104; when
present, coerce its value with `int()`; on success store `value * 20` as
the native value, and when the coercion raises `ValueError`/`TypeError`
catch it and store `None`.  When the datapoint is absent the state is
unchanged.  The function is total: no exception escapes it. -/
def battery_enum_getter (datapoints : Int → Option TuyaBLEDataPoint)
    (s : TuyaBLESensorState) : TuyaBLESensorState :=
  match datapoints 104 with
  | none => s
  | some datapoint =>
    match pyToInt datapoint.value with
    | some value => { s with native_value := some (.pInt (value * 20)) }
    | none => { s with native_value := none }

/-- `TuyaBLESensor._handle_enum_value` of sensor.py, taking the numeric
view `q` of the datapoint value (the caller has established
`pyNum value = some q`).  Python list indexing accepts int and bool
indices and raises `TypeError` on a float index, modelled by `idx`;
negative indices never reach the subscripts because the `0 <= value`
guard precedes them, so `Int.toNat` is exact where it is used. -/
def TuyaBLESensor_handle_enum_value (m : TuyaBLESensorMapping)
    (value : PyVal) (q : Rat) (s : TuyaBLESensorState) :
    Option TuyaBLESensorState :=
  let idx : Option Nat :=
    match value with
    | .pInt n => some n.toNat
    | .pBool b => some (cond b 1 0)
    | _ => none
  let s1opt : Option TuyaBLESensorState :=
    match m.description.options with
    | some opts =>
      if 0 ≤ q ∧ q < (opts.length : Rat) then
        match idx with
        | some i => some { s with native_value := some (.pStr (opts.getD i "")) }
        | none => none
      else some { s with native_value := some value }
    | none => some { s with native_value := some value }
  match s1opt with
  | none => none
  | some s1 =>
    match m.icons with
    | some icons =>
      if 0 ≤ q ∧ q < (icons.length : Rat) then
        match idx with
        | some i => some { s1 with icon := some (icons.getD i "") }
        | none => none
      else some s1
    | none => some s1

/-- `TuyaBLESensor._handle_coordinator_update` of sensor.py.  Returns
`none` when the Python code would raise (float list index, coefficient
zero), otherwise `some (state, wrote)` with `wrote` recording whether
`async_write_ha_state` was called.  The source's
`elif isinstance(value, bool)` branch is unreachable because Python's
`bool` is a subclass of `int`, so bools are caught by the numeric
branch; the final `else` therefore only ever sees `str` values. -/
def TuyaBLESensor_handle_coordinator_update
    (m : TuyaBLESensorMapping) (datapoints : Int → Option TuyaBLEDataPoint)
    (s : TuyaBLESensorState) : Option (TuyaBLESensorState × Bool) :=
  match m.getter with
  | some g => some (g datapoints s, true)
  | none =>
    match datapoints m.dp_id with
    | none => some (s, false)
    | some datapoint =>
      if datapoint.value = PyVal.pNone then some (s, false)
      else
        match pyNum datapoint.value with
        | some q =>
          match datapoint.type with
          | .DT_ENUM =>
            match TuyaBLESensor_handle_enum_value m datapoint.value q s with
            | some s1 => some (s1, true)
            | none => none
          | .DT_VALUE =>
            if m.coefficient = 0 then none
            else
              if m.description.device_class = some SensorDeviceClass.BATTERY then
                some ({ s with
                  native_value := some (.pInt (ratTrunc (q / m.coefficient))) }, true)
              else
                some ({ s with
                  native_value := some (.pFloat (q / m.coefficient)) }, true)
          | _ => some ({ s with native_value := some datapoint.value }, true)
        | none =>
          some ({ s with native_value := some (.pStr (pyStr datapoint.value)) }, true)

/-- `TuyaBLELastUnlockSensorMapping` of sensor.py: unlock-method
datapoint ids with their labels (a dict, modelled as an association
list in insertion order with distinct keys) and a fixed description. -/
structure TuyaBLELastUnlockSensorMapping where
  unlock_methods : List (Int × String)
  description : SensorEntityDescription :=
    { key := "last_unlock_method", icon := some "mdi:account-lock-open" }

/-- Mutable attributes of a `TuyaBLELastUnlockSensor`:
`_attr_native_value` (a method label), `_attr_extra_state_attributes`
(`none` models the empty dict, `some (m, v)` the "method"/"value"
entries) and the `_last_values` tracking dict. -/
structure TuyaBLELastUnlockSensorState where
  native_value : Option String := none
  extra_state_attributes : Option (String × Option PyVal) := none
  last_values : Int → Option PyVal

/-- View of a datapoint attribute read with `getattr(dp, 'value', None)`
followed by `is not None` tests: a Python `None` value becomes absent. -/
def pyValOpt (v : PyVal) : Option PyVal :=
  if v = PyVal.pNone then none else some v

/-- `self._unlock_methods.get(dp_id, str(dp_id))` of the unlock loop. -/
def unlock_label (methods : List (Int × String)) (dp_id : Int) : String :=
  match methods.lookup dp_id with
  | some label => label
  | none => toString dp_id

/-- Loop state of `TuyaBLELastUnlockSensor._handle_coordinator_update`:
the `last_method` / `last_value` / `last_time` locals plus the mutable
`_last_values` dict. -/
structure UnlockScan where
  last_method : Option String := none
  last_value : Option PyVal := none
  last_time : Option Int := none
  last_values : Int → Option PyVal

/-- One iteration of the unlock-method loop for datapoint id `dp_id`:
present datapoints with a timestamp compete for the strictly latest
timestamp; present datapoints without a timestamp fall back to change
detection against `_last_values`.  The device table lookup merges
`datapoints.has_id(dp_id)`, the subscript and the `is not None` test. -/
def unlock_scan_step (methods : List (Int × String))
    (datapoints : Int → Option TuyaBLEDataPoint)
    (a : UnlockScan) (dp_id : Int) : UnlockScan :=
  match datapoints dp_id with
  | none => a
  | some dp =>
    match dp.timestamp with
    | some t =>
      match a.last_time with
      | none =>
        { a with
          last_method := some (unlock_label methods dp_id),
          last_value := pyValOpt dp.value,
          last_time := some t }
      | some lt =>
        if t > lt then
          { a with
            last_method := some (unlock_label methods dp_id),
            last_value := pyValOpt dp.value,
            last_time := some t }
        else a
    | none =>
      match pyValOpt dp.value with
      | some v =>
        if a.last_values dp_id ≠ some v then
          { a with
            last_method := some (unlock_label methods dp_id),
            last_value := some v,
            last_values := fun i => if i = dp_id then some v
              else a.last_values i }
        else a
      | none => a

/-- `TuyaBLELastUnlockSensor._handle_coordinator_update`: scan the
unlock-method ids in dict insertion order; when a method was selected,
set the native value and the extra state attributes; host state is
always written (the returned flag). -/
def TuyaBLELastUnlockSensor_handle_coordinator_update
    (methods : List (Int × String))
    (datapoints : Int → Option TuyaBLEDataPoint)
    (s : TuyaBLELastUnlockSensorState) :
    TuyaBLELastUnlockSensorState × Bool :=
  let scan := (methods.map Prod.fst).foldl
    (unlock_scan_step methods datapoints)
    { last_values := s.last_values }
  match scan.last_method with
  | some m =>
    ({ native_value := some m,
       extra_state_attributes := some (m, scan.last_value),
       last_values := scan.last_values }, true)
  | none => ({ s with last_values := scan.last_values }, true)

/-- Check that an optional datapoint's timestamp is strictly below `tw`
(absent datapoints pass, present datapoints without a timestamp fail);
decidable form of the side condition making one datapoint the strictly
most recently updated. -/
def ts_below : Option TuyaBLEDataPoint → Int → Bool
  | none, _ => true
  | some dp, tw =>
    match dp.timestamp with
    | some t => decide (t < tw)
    | none => false

/-- Modelled from the spec: `const.py` of this repository is not under
`src/`.  Bus event types fired by the coordinators: the
`FINGERBOT_BUTTON_EVENT` constant and the four interpolated
`_lock_..._event` names are pairwise distinct strings, modelled as
distinct tags. -/
inductive BusEventType
  | fingerbot_button
  | lock_alarm
  | lock_unlock_ble
  | lock_unlock_fingerprint
  | lock_unlock_password
  deriving DecidableEq

/-- Bus event fired via `hass.bus.fire`: event type plus the payload
fields the coordinators populate (`CONF_ADDRESS`, `CONF_DEVICE_ID`, and
for lock events the "event" label and datapoint "value"). -/
structure BusEvent where
  event_type : BusEventType
  address : String
  device_id : String
  payload_event : Option String := none
  payload_value : Option PyVal := none
  deriving DecidableEq

/-- Payload of the fingerbot button press bus event: the device's
address and device id (identical literal in both coordinator classes). -/
def fingerbot_button_event (device : TuyaBLEDevice) : BusEvent :=
  { event_type := .fingerbot_button,
    address := device.address,
    device_id := device.device_id }

/-- Payload of a lock bus event: address, device id, the "event" label
string and the updated datapoint's value (identical literals in both
coordinator classes, one per lock event kind). -/
def lock_event (ty : BusEventType) (label : String) (device : TuyaBLEDevice)
    (update : TuyaBLEDataPoint) : BusEvent :=
  { event_type := ty,
    address := device.address,
    device_id := device.device_id,
    payload_event := some label,
    payload_value := some update.value }

/-- Shared mutable state of `TuyaBLECoordinator` and
`TuyaBLEPassiveCoordinator` (their connection/timer code is identical),
together with a model of the host's `async_call_later` primitive:
`armed` lists the live delayed callbacks the host will eventually fire,
`unsub_disconnect` is the cancel handle stored by the coordinator, and
`next_timer` supplies fresh timer names.  Calling the stored handle
cancels the timer (removes it from `armed`) but — exactly as in the
source — does not clear `_unsub_disconnect` itself. -/
structure CoordinatorState where
  disconnected : Bool := true
  unsub_disconnect : Option Nat := none
  armed : List Nat := []
  next_timer : Nat := 0
  deriving DecidableEq

/-- `_async_handle_connect` (identical in both coordinator classes): if
a disconnect-timer handle is stored, call it, cancelling the delayed
callback; if currently disconnected, become connected and notify
listeners.  The stored handle is not cleared. -/
def coordinator_handle_connect (s : CoordinatorState) : CoordinatorState :=
  let s1 :=
    match s.unsub_disconnect with
    | some t => { s with armed := s.armed.erase t }
    | none => s
  if s1.disconnected then { s1 with disconnected := false } else s1

/-- `_set_disconnected` (identical in both classes), invoked when the
armed delayed callback fires: mark disconnected, clear the handle,
notify listeners. -/
def coordinator_set_disconnected (s : CoordinatorState) : CoordinatorState :=
  { s with disconnected := true, unsub_disconnect := none }

/-- `_async_handle_disconnect` (identical in both classes): arm a
delayed `_set_disconnected` via `async_call_later` only when no handle
is stored. -/
def coordinator_handle_disconnect (s : CoordinatorState) : CoordinatorState :=
  match s.unsub_disconnect with
  | none =>
    { s with
      unsub_disconnect := some s.next_timer,
      armed := s.armed ++ [s.next_timer],
      next_timer := s.next_timer + 1 }
  | some _ => s

/-- `TuyaBLECoordinator._async_handle_update`: run the connect handler,
notify listeners, look the product info up and return early when it is
`None` (`if not info`); otherwise fire the fingerbot button event for
each matching update when `manual_control` is set, then fire the lock
events, skipping updates not changed by the device with `continue`.
Returns the new state and the bus events fired, in order. -/
def TuyaBLECoordinator_async_handle_update (device : TuyaBLEDevice)
    (s : CoordinatorState) (updates : List TuyaBLEDataPoint) :
    CoordinatorState × List BusEvent :=
  let s1 := coordinator_handle_connect s
  match get_device_product_info device with
  | none => (s1, [])
  | some info =>
    let fingerbot_events :=
      match info.fingerbot with
      | some fingerbot =>
        if fingerbot.manual_control ≠ 0 then
          updates.foldl
            (fun acc update =>
              if update.id = fingerbot.switch ∧ update.changed_by_device then
                acc ++ [fingerbot_button_event device]
              else acc) []
        else []
      | none => []
    let lock_events :=
      match info.lock with
      | some lock =>
        updates.foldl
          (fun acc update =>
            if update.changed_by_device = false then acc
            else if update.id = lock.alarm_lock then
              acc ++ [lock_event .lock_alarm "alarm_lock" device update]
            else if update.id = lock.unlock_ble then
              acc ++ [lock_event .lock_unlock_ble "unlock_ble" device update]
            else if update.id = lock.unlock_fingerprint then
              acc ++
                [lock_event .lock_unlock_fingerprint "unlock_fingerprint"
                  device update]
            else if update.id = lock.unlock_password then
              acc ++ [lock_event .lock_unlock_password "unlock_password"
                device update]
            else acc) []
      | none => []
    (s1, fingerbot_events ++ lock_events)

/-- `TuyaBLEPassiveCoordinator._async_handle_update`: same connect
handling, but the product info is tested with `if info and ...` guards
instead of an early return, and the lock loop nests its body under
`if update.changed_by_device:` instead of using `continue`. -/
def TuyaBLEPassiveCoordinator_async_handle_update (device : TuyaBLEDevice)
    (s : CoordinatorState) (updates : List TuyaBLEDataPoint) :
    CoordinatorState × List BusEvent :=
  let s1 := coordinator_handle_connect s
  let info := get_device_product_info device
  let fingerbot_events :=
    match info with
    | some i =>
      match i.fingerbot with
      | some fingerbot =>
        if fingerbot.manual_control ≠ 0 then
          updates.foldl
            (fun acc update =>
              if update.id = fingerbot.switch ∧ update.changed_by_device then
                acc ++ [fingerbot_button_event device]
              else acc) []
        else []
      | none => []
    | none => []
  let lock_events :=
    match info with
    | some i =>
      match i.lock with
      | some lock =>
        updates.foldl
          (fun acc update =>
            if update.changed_by_device then
              if update.id = lock.alarm_lock then
                acc ++ [lock_event .lock_alarm "alarm_lock" device update]
              else if update.id = lock.unlock_ble then
                acc ++ [lock_event .lock_unlock_ble "unlock_ble" device update]
              else if update.id = lock.unlock_fingerprint then
                acc ++
                  [lock_event .lock_unlock_fingerprint "unlock_fingerprint"
                    device update]
              else if update.id = lock.unlock_password then
                acc ++ [lock_event .lock_unlock_password "unlock_password"
                  device update]
              else acc
            else acc) []
      | none => []
    | none => []
  (s1, fingerbot_events ++ lock_events)

/-- Events a coordinator reacts to: the three device-manager callbacks
and the host firing an armed delayed callback.  Firing a cancelled or
never-armed timer id is a no-op: `async_call_later` cancellation removes
the callback from the host's schedule. -/
inductive CoordinatorEvent
  | connect
  | update (updates : List TuyaBLEDataPoint)
  | disconnect
  | timer_fire (t : Nat)

/-- One step of the coordinator's reactive behaviour.  An `update`
affects the connection/timer state exactly through `_async_handle_connect`
(the bus events it fires do not touch the timer state). -/
def coordinator_step (device : TuyaBLEDevice) (s : CoordinatorState) :
    CoordinatorEvent → CoordinatorState
  | .connect => coordinator_handle_connect s
  | .update updates =>
    (TuyaBLEPassiveCoordinator_async_handle_update device s updates).1
  | .disconnect => coordinator_handle_disconnect s
  | .timer_fire t =>
    if t ∈ s.armed then
      coordinator_set_disconnected { s with armed := s.armed.erase t }
    else s

/-- Coordinator state right after `__init__`: disconnected, no timer. -/
def coordinator_init : CoordinatorState := {}

/-- Run a coordinator over a sequence of events from the initial state. -/
def coordinator_run (device : TuyaBLEDevice)
    (events : List CoordinatorEvent) : CoordinatorState :=
  events.foldl (coordinator_step device) coordinator_init

/-- Invariant tying the armed delayed callbacks to the stored handle:
at most one is armed, and any armed one is the stored handle. -/
def CoordinatorInv (s : CoordinatorState) : Prop :=
  s.armed.length ≤ 1 ∧ ∀ t ∈ s.armed, s.unsub_disconnect = some t

/-- C1: for every category key present in `devices_database` and every
product_id key present in that category's products dict,
`get_product_info_by_ids category product_id` returns exactly the
`TuyaBLEProductInfo` stored in the catalog for that pair. -/
theorem c1_catalog_lookup_exact :
    ∀ c ∈ devices_database, ∀ p ∈ c.2.products,
      get_product_info_by_ids c.1 p.1 = some p.2 := by decide

/-- Witness for C1 at the concrete pair ("co2bj", "59s19z5m"). -/
theorem c1_catalog_lookup_exact_witness :
    get_product_info_by_ids "co2bj" "59s19z5m" =
      some { name := "CO2 Detector" } :=
  c1_catalog_lookup_exact
    ("co2bj", { products := [("59s19z5m", { name := "CO2 Detector" })] })
    (by decide)
    ("59s19z5m", { name := "CO2 Detector" })
    (by decide)

/-- C10: for a category present in the catalog and a product_id not in
its products dict, `get_product_info_by_ids` returns the category's
fallback `info`, which is `none` for every shipped category; for a
category not in the catalog it returns `none`; so every unknown lookup
yields `none` rather than raising. -/
theorem c10_unknown_lookup_yields_none :
    (∀ c ∈ devices_database, c.2.info = none) ∧
    (∀ category product_id category_info,
        devices_database.lookup category = some category_info →
        category_info.products.lookup product_id = none →
        get_product_info_by_ids category product_id = category_info.info) ∧
    (∀ category product_id,
        devices_database.lookup category = none →
        get_product_info_by_ids category product_id = none) := by
  refine ⟨by decide, ?_, ?_⟩
  · intro category product_id category_info h1 h2
    simp [get_product_info_by_ids, h1, h2]
  · intro category product_id h
    simp [get_product_info_by_ids, h]

/-- Witness for C10: an unknown product in a known category and a fully
unknown category both map to `none`. -/
theorem c10_unknown_lookup_yields_none_witness :
    get_product_info_by_ids "co2bj" "zzzzzzzz" = none ∧
    get_product_info_by_ids "nocategory" "59s19z5m" = none := by
  constructor
  · exact c10_unknown_lookup_yields_none.2.1 "co2bj" "zzzzzzzz"
      { products := [("59s19z5m", { name := "CO2 Detector" })] }
      (by decide) (by decide)
  · exact c10_unknown_lookup_yields_none.2.2 "nocategory" "59s19z5m" (by decide)

/-- C3: when `battery_enum_getter` runs with datapoint 104 present and
its raw value coercible to the integer 3, the native value written is
60, i.e. the raw value multiplied by 20. -/
theorem c3_battery_enum_scales_by_20
    (datapoints : Int → Option TuyaBLEDataPoint) (s : TuyaBLESensorState)
    (dp : TuyaBLEDataPoint)
    (h1 : datapoints 104 = some dp)
    (h2 : pyToInt dp.value = some 3) :
    (battery_enum_getter datapoints s).native_value = some (.pInt 60) := by
  simp [battery_enum_getter, h1, h2]

/-- Witness for C3 at a concrete device reporting datapoint 104 = 3. -/
theorem c3_battery_enum_scales_by_20_witness :
    (battery_enum_getter
      (fun i => if i = 104 then
          some { id := 104, type := .DT_ENUM, value := .pInt 3 }
        else none)
      {}).native_value = some (.pInt 60) :=
  c3_battery_enum_scales_by_20
    (fun i => if i = 104 then
        some { id := 104, type := .DT_ENUM, value := .pInt 3 }
      else none)
    {} { id := 104, type := .DT_ENUM, value := .pInt 3 }
    (by decide) (by decide)

/-- C5: `battery_enum_getter` never raises (it is a total function in
this embedding, with `pyToInt` returning `none` exactly where Python's
`int()` raises `ValueError`/`TypeError`), and when the value of
datapoint 104 cannot be coerced to int the caught exception leads to the
native value being set to `None`. -/
theorem c5_battery_enum_catches_coercion_error
    (datapoints : Int → Option TuyaBLEDataPoint) (s : TuyaBLESensorState)
    (dp : TuyaBLEDataPoint)
    (h1 : datapoints 104 = some dp)
    (h2 : pyToInt dp.value = none) :
    (battery_enum_getter datapoints s).native_value = none := by
  simp [battery_enum_getter, h1, h2]

/-- Witness for C5 at a concrete device whose datapoint 104 holds the
value `None`, on which Python's `int()` raises `TypeError`. -/
theorem c5_battery_enum_catches_coercion_error_witness :
    (battery_enum_getter
      (fun i => if i = 104 then
          some { id := 104, type := .DT_ENUM, value := .pNone }
        else none)
      {}).native_value = none :=
  c5_battery_enum_catches_coercion_error
    (fun i => if i = 104 then
        some { id := 104, type := .DT_ENUM, value := .pNone }
      else none)
    {} { id := 104, type := .DT_ENUM, value := .pNone }
    (by decide) (by decide)

/-- C8: a `TuyaBLESensor` without a custom getter whose mapped datapoint
is absent or has value `None` leaves every attribute unchanged and does
not write host state (result `some (s, false)`: no exception, same
state, no write). -/
theorem c8_missing_datapoint_is_noop
    (m : TuyaBLESensorMapping) (datapoints : Int → Option TuyaBLEDataPoint)
    (s : TuyaBLESensorState)
    (hg : m.getter = none)
    (h : datapoints m.dp_id = none ∨
        ∃ dp, datapoints m.dp_id = some dp ∧ dp.value = PyVal.pNone) :
    TuyaBLESensor_handle_coordinator_update m datapoints s = some (s, false) := by
  rcases h with h | ⟨dp, hdp, hv⟩
  · simp [TuyaBLESensor_handle_coordinator_update, hg, h]
  · simp [TuyaBLESensor_handle_coordinator_update, hg, hdp, hv]

/-- Witness for C8 with an empty datapoint table. -/
theorem c8_missing_datapoint_is_noop_witness :
    TuyaBLESensor_handle_coordinator_update
      { dp_id := 8, description := { key := "battery" } }
      (fun _ => none) {} = some ({}, false) :=
  c8_missing_datapoint_is_noop
    { dp_id := 8, description := { key := "battery" } }
    (fun _ => none) {} rfl (Or.inl rfl)

/-- Helper for the enum branch: an in-range int value selects the
option string at that index, whatever the icon list does. -/
theorem TuyaBLESensor_handle_enum_value_int_in_range
    (m : TuyaBLESensorMapping) (n : Int) (opts : List String)
    (s : TuyaBLESensorState)
    (hopts : m.description.options = some opts)
    (hn0 : 0 ≤ n) (hnlen : n < (opts.length : Int)) :
    ∃ st, TuyaBLESensor_handle_enum_value m (.pInt n) (n : Rat) s = some st ∧
      st.native_value = some (.pStr (opts.getD n.toNat "")) := by
  have hq0 : (0 : Rat) ≤ (n : Rat) := by exact_mod_cast hn0
  have hqlen : ((n : Rat)) < (opts.length : Rat) := by exact_mod_cast hnlen
  cases hic : m.icons with
  | none =>
    refine ⟨{ s with native_value := some (.pStr (opts.getD n.toNat "")) }, ?_, rfl⟩
    simp [TuyaBLESensor_handle_enum_value, hopts, hic, hq0, hqlen]
  | some icons =>
    by_cases hr : 0 ≤ (n : Rat) ∧ (n : Rat) < (icons.length : Rat)
    · refine ⟨{ native_value := some (.pStr (opts.getD n.toNat "")),
                icon := some (icons.getD n.toNat "") }, ?_, rfl⟩
      simp [TuyaBLESensor_handle_enum_value, hopts, hic, hq0, hqlen, hr]
    · refine ⟨{ s with native_value := some (.pStr (opts.getD n.toNat "")) }, ?_, rfl⟩
      simp [TuyaBLESensor_handle_enum_value, hopts, hic, hq0, hqlen, hr]
      intro h1
      exact absurd ⟨hq0, h1⟩ hr

/-- C4: a `TuyaBLESensor` without a custom getter, whose mapped
datapoint is present with a numeric (int or float) value of type
`DT_VALUE`, gets as native value the value divided by the mapping's
coefficient, truncated to int when the device class is `BATTERY`; for a
`DT_ENUM` int value that is a valid index into the description's
options, the native value becomes the option string at that index; in
all these cases host state is written. -/
theorem c4_value_and_enum_paths
    (m : TuyaBLESensorMapping) (datapoints : Int → Option TuyaBLEDataPoint)
    (s : TuyaBLESensorState) (dp : TuyaBLEDataPoint)
    (hg : m.getter = none) (hdp : datapoints m.dp_id = some dp) :
    (∀ n : Int, dp.type = .DT_VALUE → dp.value = .pInt n →
      m.coefficient ≠ 0 →
      TuyaBLESensor_handle_coordinator_update m datapoints s =
        some ({ s with native_value := some (
          if m.description.device_class = some SensorDeviceClass.BATTERY then
            .pInt (ratTrunc ((n : Rat) / m.coefficient))
          else
            .pFloat ((n : Rat) / m.coefficient)) }, true)) ∧
    (∀ x : Rat, dp.type = .DT_VALUE → dp.value = .pFloat x →
      m.coefficient ≠ 0 →
      TuyaBLESensor_handle_coordinator_update m datapoints s =
        some ({ s with native_value := some (
          if m.description.device_class = some SensorDeviceClass.BATTERY then
            .pInt (ratTrunc (x / m.coefficient))
          else
            .pFloat (x / m.coefficient)) }, true)) ∧
    (∀ (n : Int) (opts : List String), dp.type = .DT_ENUM →
      dp.value = .pInt n → m.description.options = some opts →
      0 ≤ n → n < (opts.length : Int) →
      ∃ st, TuyaBLESensor_handle_coordinator_update m datapoints s =
          some (st, true) ∧
        st.native_value = some (.pStr (opts.getD n.toNat ""))) := by
  refine ⟨?_, ?_, ?_⟩
  · intro n ht hv hc
    by_cases hb : m.description.device_class = some SensorDeviceClass.BATTERY <;>
      simp [TuyaBLESensor_handle_coordinator_update, hg, hdp, hv, ht, pyNum, hc, hb]
  · intro x ht hv hc
    by_cases hb : m.description.device_class = some SensorDeviceClass.BATTERY <;>
      simp [TuyaBLESensor_handle_coordinator_update, hg, hdp, hv, ht, pyNum, hc, hb]
  · intro n opts ht hv hopts hn0 hnlen
    obtain ⟨st, hst, hnat⟩ :=
      TuyaBLESensor_handle_enum_value_int_in_range m n opts s hopts hn0 hnlen
    refine ⟨st, ?_, hnat⟩
    simp [TuyaBLESensor_handle_coordinator_update, hg, hdp, hv, ht, pyNum, hst]

/-- Witness for C4: a battery `DT_VALUE` datapoint of 55 with
coefficient 1 is written as the integer 55. -/
theorem c4_value_and_enum_paths_witness :
    TuyaBLESensor_handle_coordinator_update
      { dp_id := 8,
        description :=
          { key := "battery", device_class := some SensorDeviceClass.BATTERY } }
      (fun i => if i = 8 then
          some { id := 8, type := .DT_VALUE, value := .pInt 55 }
        else none)
      {} =
    some ({ native_value := some (.pInt 55) }, true) := by
  have h :=
    (c4_value_and_enum_paths
      { dp_id := 8,
        description :=
          { key := "battery", device_class := some SensorDeviceClass.BATTERY } }
      (fun i => if i = 8 then
          some { id := 8, type := .DT_VALUE, value := .pInt 55 }
        else none)
      {} { id := 8, type := .DT_VALUE, value := .pInt 55 }
      rfl (by decide)).1 55 rfl rfl (by decide)
  simpa using h

/-- Helper: the two lock-event loop bodies — `continue` on updates not
changed by the device versus nesting under `if update.changed_by_device:`
— are the same function. -/
theorem lock_fold_body_eq (device : TuyaBLEDevice) (lock : TuyaBLELockInfo) :
    (fun (acc : List BusEvent) (update : TuyaBLEDataPoint) =>
      if update.changed_by_device = false then acc
      else if update.id = lock.alarm_lock then
        acc ++ [lock_event .lock_alarm "alarm_lock" device update]
      else if update.id = lock.unlock_ble then
        acc ++ [lock_event .lock_unlock_ble "unlock_ble" device update]
      else if update.id = lock.unlock_fingerprint then
        acc ++
          [lock_event .lock_unlock_fingerprint "unlock_fingerprint"
            device update]
      else if update.id = lock.unlock_password then
        acc ++ [lock_event .lock_unlock_password "unlock_password"
          device update]
      else acc) =
    (fun (acc : List BusEvent) (update : TuyaBLEDataPoint) =>
      if update.changed_by_device then
        if update.id = lock.alarm_lock then
          acc ++ [lock_event .lock_alarm "alarm_lock" device update]
        else if update.id = lock.unlock_ble then
          acc ++ [lock_event .lock_unlock_ble "unlock_ble" device update]
        else if update.id = lock.unlock_fingerprint then
          acc ++
            [lock_event .lock_unlock_fingerprint "unlock_fingerprint"
              device update]
        else if update.id = lock.unlock_password then
          acc ++ [lock_event .lock_unlock_password "unlock_password"
            device update]
        else acc
      else acc) := by
  funext acc update
  cases h : update.changed_by_device <;> simp [h]

/-- Helper: the two update handlers agree on every input. -/
theorem update_handlers_agree (device : TuyaBLEDevice)
    (s : CoordinatorState) (updates : List TuyaBLEDataPoint) :
    TuyaBLECoordinator_async_handle_update device s updates =
      TuyaBLEPassiveCoordinator_async_handle_update device s updates := by
  unfold TuyaBLECoordinator_async_handle_update
    TuyaBLEPassiveCoordinator_async_handle_update
  cases hinfo : get_device_product_info device with
  | none => rfl
  | some info =>
    cases hlock : info.lock with
    | none => simp only [hlock]
    | some lock =>
      simp only [hlock, lock_fold_body_eq device lock]

/-- Helper: the fingerbot event loop emits exactly one button event per
update matching the switch id with `changed_by_device` set. -/
theorem fingerbot_fold_filter_map (device : TuyaBLEDevice)
    (fingerbot : TuyaBLEFingerbotInfo) (updates : List TuyaBLEDataPoint)
    (acc : List BusEvent) :
    updates.foldl
      (fun acc update =>
        if update.id = fingerbot.switch ∧ update.changed_by_device then
          acc ++ [fingerbot_button_event device]
        else acc) acc =
    acc ++ (updates.filter
        (fun u => decide (u.id = fingerbot.switch) && u.changed_by_device)).map
      (fun _ => fingerbot_button_event device) := by
  induction updates generalizing acc with
  | nil => simp
  | cons u us ih =>
    by_cases h : u.id = fingerbot.switch ∧ u.changed_by_device
    · simp only [List.foldl_cons, List.filter_cons, if_pos h]
      rw [ih]
      simp [h]
    · simp only [List.foldl_cons, List.filter_cons, if_neg h]
      rw [ih]
      have hb : (decide (u.id = fingerbot.switch) && u.changed_by_device)
          = false := by
        by_contra hc
        simp only [Bool.not_eq_false, Bool.and_eq_true, decide_eq_true_eq] at hc
        exact h ⟨hc.1, hc.2⟩
      rw [hb]
      simp

/-- Helper: no event emitted by the lock-event loop is a fingerbot
button event. -/
theorem lock_fold_no_fingerbot (device : TuyaBLEDevice)
    (lock : TuyaBLELockInfo) (updates : List TuyaBLEDataPoint)
    (acc : List BusEvent)
    (hacc : ∀ e ∈ acc, e.event_type ≠ BusEventType.fingerbot_button) :
    ∀ e ∈ updates.foldl
        (fun acc update =>
          if update.changed_by_device then
            if update.id = lock.alarm_lock then
              acc ++ [lock_event .lock_alarm "alarm_lock" device update]
            else if update.id = lock.unlock_ble then
              acc ++ [lock_event .lock_unlock_ble "unlock_ble" device update]
            else if update.id = lock.unlock_fingerprint then
              acc ++
                [lock_event .lock_unlock_fingerprint "unlock_fingerprint"
                  device update]
            else if update.id = lock.unlock_password then
              acc ++ [lock_event .lock_unlock_password "unlock_password"
                device update]
            else acc
          else acc) acc,
      e.event_type ≠ BusEventType.fingerbot_button := by
  induction updates generalizing acc with
  | nil => exact hacc
  | cons u us ih =>
    simp only [List.foldl_cons]
    apply ih
    intro e he
    have he' : e ∈ acc ∨ e.event_type ≠ BusEventType.fingerbot_button := by
      by_cases hc : u.changed_by_device = true
      · rw [if_pos hc] at he
        by_cases h1 : u.id = lock.alarm_lock
        · rw [if_pos h1] at he
          rcases List.mem_append.mp he with h | h
          · exact Or.inl h
          · right
            simp only [List.mem_singleton] at h
            subst h
            simp [lock_event]
        · rw [if_neg h1] at he
          by_cases h2 : u.id = lock.unlock_ble
          · rw [if_pos h2] at he
            rcases List.mem_append.mp he with h | h
            · exact Or.inl h
            · right
              simp only [List.mem_singleton] at h
              subst h
              simp [lock_event]
          · rw [if_neg h2] at he
            by_cases h3 : u.id = lock.unlock_fingerprint
            · rw [if_pos h3] at he
              rcases List.mem_append.mp he with h | h
              · exact Or.inl h
              · right
                simp only [List.mem_singleton] at h
                subst h
                simp [lock_event]
            · rw [if_neg h3] at he
              by_cases h4 : u.id = lock.unlock_password
              · rw [if_pos h4] at he
                rcases List.mem_append.mp he with h | h
                · exact Or.inl h
                · right
                  simp only [List.mem_singleton] at h
                  subst h
                  simp [lock_event]
              · rw [if_neg h4] at he
                exact Or.inl he
      · rw [if_neg hc] at he
        exact Or.inl he
    rcases he' with h | h
    · exact hacc e h
    · exact h

/-- Helper: the fingerbot-button events fired by the passive update
handler are exactly one per matching update, in update order. -/
theorem passive_fingerbot_filter
    (device : TuyaBLEDevice) (s : CoordinatorState)
    (updates : List TuyaBLEDataPoint) (info : TuyaBLEProductInfo)
    (fingerbot : TuyaBLEFingerbotInfo)
    (hinfo : get_device_product_info device = some info)
    (hfb : info.fingerbot = some fingerbot)
    (hmc : fingerbot.manual_control ≠ 0) :
    ((TuyaBLEPassiveCoordinator_async_handle_update device s updates).2.filter
        (fun e => decide (e.event_type = BusEventType.fingerbot_button)) =
      (updates.filter
          (fun u => decide (u.id = fingerbot.switch) && u.changed_by_device)).map
        (fun _ => fingerbot_button_event device)) := by
  cases hlock : info.lock with
  | none =>
    simp only [TuyaBLEPassiveCoordinator_async_handle_update, hinfo, hfb, hlock]
    rw [if_pos hmc, fingerbot_fold_filter_map device fingerbot updates []]
    simp [List.filter_map, Function.comp, fingerbot_button_event]
  | some lock =>
    simp only [TuyaBLEPassiveCoordinator_async_handle_update, hinfo, hfb, hlock]
    rw [if_pos hmc, fingerbot_fold_filter_map device fingerbot updates []]
    rw [List.nil_append, List.filter_append]
    have hnil : List.filter
        (fun e => decide (e.event_type = BusEventType.fingerbot_button))
        (updates.foldl
          (fun acc update =>
            if update.changed_by_device then
              if update.id = lock.alarm_lock then
                acc ++ [lock_event .lock_alarm "alarm_lock" device update]
              else if update.id = lock.unlock_ble then
                acc ++ [lock_event .lock_unlock_ble "unlock_ble" device update]
              else if update.id = lock.unlock_fingerprint then
                acc ++
                  [lock_event .lock_unlock_fingerprint "unlock_fingerprint"
                    device update]
              else if update.id = lock.unlock_password then
                acc ++ [lock_event .lock_unlock_password "unlock_password"
                  device update]
              else acc
            else acc) []) = [] :=
      List.filter_eq_nil_iff.mpr (fun a ha => by
        simpa using lock_fold_no_fingerbot device lock updates [] (by simp) a ha)
    rw [hnil, List.append_nil]
    simp [List.filter_map, Function.comp, fingerbot_button_event]

/-- C9: `TuyaBLECoordinator._async_handle_update` and
`TuyaBLEPassiveCoordinator._async_handle_update` are behaviourally
equivalent: on the same device, state and updates they make the same
connected-state transition and fire the same bus events with the same
payloads in the same order. -/
theorem c9_update_handlers_equivalent (device : TuyaBLEDevice)
    (s : CoordinatorState) (updates : List TuyaBLEDataPoint) :
    TuyaBLECoordinator_async_handle_update device s updates =
      TuyaBLEPassiveCoordinator_async_handle_update device s updates :=
  update_handlers_agree device s updates

/-- C6: for a device whose product info carries a fingerbot descriptor
with `manual_control ≠ 0`, each update handler fires the fingerbot
button event (with the device's address and device id) exactly once per
update whose id equals the fingerbot switch id and whose
`changed_by_device` flag is set, and for no other update. -/
theorem c6_fingerbot_button_once_per_matching_update
    (device : TuyaBLEDevice) (s : CoordinatorState)
    (updates : List TuyaBLEDataPoint) (info : TuyaBLEProductInfo)
    (fingerbot : TuyaBLEFingerbotInfo)
    (hinfo : get_device_product_info device = some info)
    (hfb : info.fingerbot = some fingerbot)
    (hmc : fingerbot.manual_control ≠ 0) :
    ((TuyaBLECoordinator_async_handle_update device s updates).2.filter
        (fun e => decide (e.event_type = BusEventType.fingerbot_button)) =
      (updates.filter
          (fun u => decide (u.id = fingerbot.switch) && u.changed_by_device)).map
        (fun _ => fingerbot_button_event device)) ∧
    ((TuyaBLEPassiveCoordinator_async_handle_update device s updates).2.filter
        (fun e => decide (e.event_type = BusEventType.fingerbot_button)) =
      (updates.filter
          (fun u => decide (u.id = fingerbot.switch) && u.changed_by_device)).map
        (fun _ => fingerbot_button_event device)) := by
  have hpass :=
    passive_fingerbot_filter device s updates info fingerbot hinfo hfb hmc
  exact ⟨by rw [update_handlers_agree]; exact hpass, hpass⟩

/-- Witness for C6: a Fingerbot Plus device receiving one matching
update (switch id 2, changed by device) and one non-matching update
fires exactly one button event per handler. -/
theorem c6_fingerbot_button_once_per_matching_update_witness :
    ((TuyaBLEPassiveCoordinator_async_handle_update
        { address := "AA:BB", device_id := "dev1", category := "szjqr",
          product_id := "blliqpsj", datapoints := fun _ => none }
        {}
        [ { id := 2, type := .DT_BOOL, value := .pBool true,
            changed_by_device := true },
          { id := 8, type := .DT_ENUM, value := .pInt 0,
            changed_by_device := true } ]).2.filter
      (fun e => decide (e.event_type = BusEventType.fingerbot_button)) =
      [ { event_type := .fingerbot_button, address := "AA:BB",
          device_id := "dev1" } ]) :=
  (c6_fingerbot_button_once_per_matching_update
    { address := "AA:BB", device_id := "dev1", category := "szjqr",
      product_id := "blliqpsj", datapoints := fun _ => none }
    {}
    [ { id := 2, type := .DT_BOOL, value := .pBool true,
        changed_by_device := true },
      { id := 8, type := .DT_ENUM, value := .pInt 0,
        changed_by_device := true } ]
    fingerbot_plus_info
    { switch := 2, mode := 8, up_position := 15, down_position := 9,
      hold_time := 10, reverse_positions := 11, manual_control := 17,
      program := 121 }
    (by decide) (by decide) (by decide)).2

/-- Helper: `_async_handle_connect` never alters the stored handle. -/
theorem handle_connect_unsub (s : CoordinatorState) :
    (coordinator_handle_connect s).unsub_disconnect = s.unsub_disconnect := by
  unfold coordinator_handle_connect
  cases hu : s.unsub_disconnect <;> simp [hu] <;> split <;> simp [hu]

/-- Helper: `_async_handle_connect` erases the stored handle's timer
from the armed set and touches nothing else there. -/
theorem handle_connect_armed (s : CoordinatorState) :
    (coordinator_handle_connect s).armed =
      match s.unsub_disconnect with
      | some t => s.armed.erase t
      | none => s.armed := by
  unfold coordinator_handle_connect
  cases hu : s.unsub_disconnect <;> simp [hu] <;> split <;> rfl

/-- Helper: the state component of the passive update handler is the
connect handler's result. -/
theorem passive_update_fst (device : TuyaBLEDevice) (s : CoordinatorState)
    (updates : List TuyaBLEDataPoint) :
    (TuyaBLEPassiveCoordinator_async_handle_update device s updates).1 =
      coordinator_handle_connect s := rfl

/-- Helper: the connect handler preserves the timer invariant. -/
theorem inv_handle_connect {s : CoordinatorState} (h : CoordinatorInv s) :
    CoordinatorInv (coordinator_handle_connect s) := by
  obtain ⟨hlen, hmem⟩ := h
  constructor
  · rw [handle_connect_armed]
    cases s.unsub_disconnect with
    | none => exact hlen
    | some t => exact le_trans (List.length_erase_le t s.armed) hlen
  · intro t ht
    rw [handle_connect_unsub]
    rw [handle_connect_armed] at ht
    cases hu : s.unsub_disconnect with
    | none =>
      rw [hu] at ht
      exact hu ▸ hmem t ht
    | some t0 =>
      rw [hu] at ht
      exact hu ▸ hmem t (List.mem_of_mem_erase ht)

/-- Helper: the disconnect handler preserves the timer invariant: it
arms a fresh timer only when no handle is stored, in which case the
invariant forces the armed set to be empty. -/
theorem inv_handle_disconnect {s : CoordinatorState} (h : CoordinatorInv s) :
    CoordinatorInv (coordinator_handle_disconnect s) := by
  obtain ⟨hlen, hmem⟩ := h
  cases hu : s.unsub_disconnect with
  | some t =>
    have hd : coordinator_handle_disconnect s = s := by
      simp [coordinator_handle_disconnect, hu]
    rw [hd]
    exact ⟨hlen, hmem⟩
  | none =>
    have harmed : s.armed = [] := by
      cases ha : s.armed with
      | nil => rfl
      | cons a l =>
        have hm := hmem a (by simp [ha])
        rw [hu] at hm
        cases hm
    simp [coordinator_handle_disconnect, hu, CoordinatorInv, harmed]

/-- Helper: under the invariant, the connect handler leaves no armed
timer at all. -/
theorem connect_clears_armed {s : CoordinatorState} (h : CoordinatorInv s) :
    (coordinator_handle_connect s).armed = [] := by
  obtain ⟨hlen, hmem⟩ := h
  rw [handle_connect_armed]
  cases hu : s.unsub_disconnect with
  | none =>
    show s.armed = []
    cases ha : s.armed with
    | nil => rfl
    | cons a l =>
      have hm := hmem a (by simp [ha])
      rw [hu] at hm
      cases hm
  | some t =>
    show s.armed.erase t = []
    cases ha : s.armed with
    | nil => simp [ha]
    | cons a l =>
      have h1 : s.armed.length = 1 := le_antisymm hlen (by simp [ha])
      obtain ⟨b, hb⟩ := List.length_eq_one.mp h1
      have hmb := hmem b (by simp [hb])
      rw [hu] at hmb
      injection hmb with hbt
      have hab : a :: l = [b] := by rw [← ha, hb]
      rw [hab, hbt]
      exact List.erase_cons_head b []

/-- Helper: every coordinator step preserves the timer invariant. -/
theorem inv_step (device : TuyaBLEDevice) {s : CoordinatorState}
    (h : CoordinatorInv s) (e : CoordinatorEvent) :
    CoordinatorInv (coordinator_step device s e) := by
  cases e with
  | connect => exact inv_handle_connect h
  | update updates =>
    have hc := inv_handle_connect h
    simpa [coordinator_step, passive_update_fst] using hc
  | disconnect => exact inv_handle_disconnect h
  | timer_fire t =>
    by_cases ht : t ∈ s.armed
    · obtain ⟨hlen, hmem⟩ := h
      have h1 : s.armed.length = 1 :=
        le_antisymm hlen (List.length_pos_of_mem ht)
      obtain ⟨a, ha⟩ := List.length_eq_one.mp h1
      rw [ha] at ht
      simp only [List.mem_singleton] at ht
      subst ht
      simp [coordinator_step, ha, coordinator_set_disconnected,
        CoordinatorInv]
    · simpa [coordinator_step, ht] using h

/-- Helper: the invariant holds in every reachable coordinator state. -/
theorem inv_run (device : TuyaBLEDevice) (events : List CoordinatorEvent) :
    CoordinatorInv (coordinator_run device events) := by
  have hfold : ∀ (es : List CoordinatorEvent) (s : CoordinatorState),
      CoordinatorInv s →
      CoordinatorInv (es.foldl (coordinator_step device) s) := by
    intro es
    induction es with
    | nil => intro s h; exact h
    | cons e es ih =>
      intro s h
      exact ih _ (inv_step device h e)
  exact hfold events coordinator_init (by constructor <;> simp [coordinator_init])

/-- C7: over every sequence of connect, update, disconnect and
timer-fire events, at most one delayed disconnect callback is armed at
any time; moreover in every reachable state the connect handler cancels
any pending timer, the disconnect handler is a no-op while a handle is
pending, and a firing timer clears the pending handle. -/
theorem c7_at_most_one_disconnect_timer (device : TuyaBLEDevice)
    (events : List CoordinatorEvent) :
    ((coordinator_run device events).armed.length ≤ 1) ∧
    ((coordinator_handle_connect (coordinator_run device events)).armed = []) ∧
    ((coordinator_run device events).unsub_disconnect ≠ none →
      coordinator_handle_disconnect (coordinator_run device events) =
        coordinator_run device events) ∧
    (∀ t ∈ (coordinator_run device events).armed,
      (coordinator_step device (coordinator_run device events)
          (.timer_fire t)).unsub_disconnect = none) := by
  have hinv := inv_run device events
  refine ⟨hinv.1, connect_clears_armed hinv, ?_, ?_⟩
  · intro hne
    cases hu : (coordinator_run device events).unsub_disconnect with
    | none => exact absurd hu hne
    | some t => simp [coordinator_handle_disconnect, hu]
  · intro t ht
    simp [coordinator_step, ht, coordinator_set_disconnected]

/-- Witness for C7 after a single disconnect event, which arms timer 0. -/
theorem c7_at_most_one_disconnect_timer_witness :
    ((coordinator_run
        { address := "AA:BB", device_id := "dev1", category := "x",
          product_id := "y", datapoints := fun _ => none }
        [CoordinatorEvent.disconnect]).armed.length ≤ 1) ∧
    ((coordinator_step
        { address := "AA:BB", device_id := "dev1", category := "x",
          product_id := "y", datapoints := fun _ => none }
        (coordinator_run
          { address := "AA:BB", device_id := "dev1", category := "x",
            product_id := "y", datapoints := fun _ => none }
          [CoordinatorEvent.disconnect])
        (.timer_fire 0)).unsub_disconnect = none) := by
  have h := c7_at_most_one_disconnect_timer
    { address := "AA:BB", device_id := "dev1", category := "x",
      product_id := "y", datapoints := fun _ => none }
    [CoordinatorEvent.disconnect]
  exact ⟨h.1, h.2.2.2 0 (by decide)⟩

/-- Helper: one loop iteration either leaves `last_time` unchanged or
sets it to the timestamp of the examined present datapoint. -/
theorem unlock_scan_step_time (methods : List (Int × String))
    (datapoints : Int → Option TuyaBLEDataPoint) (a : UnlockScan) (i : Int) :
    (unlock_scan_step methods datapoints a i).last_time = a.last_time ∨
    ∃ dp t, datapoints i = some dp ∧ dp.timestamp = some t ∧
      (unlock_scan_step methods datapoints a i).last_time = some t := by
  unfold unlock_scan_step
  cases hdp : datapoints i with
  | none => exact Or.inl rfl
  | some dp =>
    dsimp only
    cases hts : dp.timestamp with
    | none =>
      dsimp only
      cases hv : pyValOpt dp.value with
      | none => exact Or.inl rfl
      | some v =>
        dsimp only
        split
        · exact Or.inl rfl
        · exact Or.inl rfl
    | some t =>
      dsimp only
      cases hat : a.last_time with
      | none => exact Or.inr ⟨dp, t, rfl, hts, rfl⟩
      | some lt =>
        dsimp only
        split
        · exact Or.inr ⟨dp, t, rfl, hts, rfl⟩
        · exact Or.inl hat
/-- Helper: a present datapoint passing `ts_below` carries a timestamp
strictly below the bound. -/
theorem ts_below_some (dp : TuyaBLEDataPoint) (tw : Int)
    (h : ts_below (some dp) tw = true) :
    ∃ t, dp.timestamp = some t ∧ t < tw := by
  unfold ts_below at h
  dsimp only at h
  cases hts : dp.timestamp with
  | none =>
    rw [hts] at h
    simp at h
  | some t =>
    rw [hts] at h
    exact ⟨t, rfl, by simpa using h⟩

/-- Helper: once `last_time` holds the strict maximum, an iteration
over a datapoint whose timestamp does not exceed it changes nothing. -/
theorem unlock_scan_step_keep (methods : List (Int × String))
    (datapoints : Int → Option TuyaBLEDataPoint) (a : UnlockScan)
    (i : Int) (tw : Int)
    (hlt : a.last_time = some tw)
    (h : ∀ dp, datapoints i = some dp → ∃ t, dp.timestamp = some t ∧ t ≤ tw) :
    unlock_scan_step methods datapoints a i = a := by
  unfold unlock_scan_step
  cases hdp : datapoints i with
  | none => rfl
  | some dp =>
    dsimp only
    obtain ⟨t, hts, htle⟩ := h dp hdp
    rw [hts]
    dsimp only
    rw [hlt]
    dsimp only
    rw [if_neg (not_lt.mpr htle)]

/-- Helper: iterations over datapoints that carry timestamps never
touch the `_last_values` tracking dict. -/
theorem unlock_scan_step_values_ts (methods : List (Int × String))
    (datapoints : Int → Option TuyaBLEDataPoint) (a : UnlockScan) (i : Int)
    (h : ∀ dp, datapoints i = some dp → ∃ t, dp.timestamp = some t) :
    (unlock_scan_step methods datapoints a i).last_values = a.last_values := by
  unfold unlock_scan_step
  cases hdp : datapoints i with
  | none => rfl
  | some dp =>
    dsimp only
    obtain ⟨t, hts⟩ := h dp hdp
    rw [hts]
    dsimp only
    cases a.last_time with
    | none => rfl
    | some lt =>
      dsimp only
      split
      · rfl
      · rfl

/-- Helper: the iteration over the winning datapoint records its label,
value and timestamp whenever `last_time` is still below it. -/
theorem unlock_scan_step_take (methods : List (Int × String))
    (datapoints : Int → Option TuyaBLEDataPoint) (a : UnlockScan)
    (w : Int) (dpw : TuyaBLEDataPoint) (tw : Int)
    (hdpw : datapoints w = some dpw) (htw : dpw.timestamp = some tw)
    (hbefore : a.last_time = none ∨ ∃ lt, a.last_time = some lt ∧ lt < tw) :
    unlock_scan_step methods datapoints a w =
      { a with
        last_method := some (unlock_label methods w),
        last_value := pyValOpt dpw.value,
        last_time := some tw } := by
  unfold unlock_scan_step
  rw [hdpw]
  dsimp only
  rw [htw]
  dsimp only
  rcases hbefore with h | ⟨lt, hlt, hlttw⟩
  · rw [h]
  · rw [hlt]
    dsimp only
    rw [if_pos hlttw]

/-- Helper: after the winner has been recorded, the rest of the loop is
the identity on the scan state. -/
theorem unlock_scan_foldl_keep (methods : List (Int × String))
    (datapoints : Int → Option TuyaBLEDataPoint) (w : Int) (tw : Int) :
    ∀ (L : List Int) (a : UnlockScan),
      (∀ dp, datapoints w = some dp → dp.timestamp = some tw) →
      (∀ i ∈ L, i ≠ w → ts_below (datapoints i) tw = true) →
      a.last_time = some tw →
      L.foldl (unlock_scan_step methods datapoints) a = a := by
  intro L
  induction L with
  | nil => intro a _ _ _; rfl
  | cons i rest ih =>
    intro a hw_ts hothers hlt
    rw [List.foldl_cons]
    have hstep : unlock_scan_step methods datapoints a i = a := by
      apply unlock_scan_step_keep methods datapoints a i tw hlt
      intro dp hdp
      by_cases hiw : i = w
      · subst hiw
        exact ⟨tw, hw_ts dp hdp, le_refl tw⟩
      · have hb := hothers i (List.mem_cons_self i rest) hiw
        rw [hdp] at hb
        obtain ⟨t, hts, htlt⟩ := ts_below_some dp tw hb
        exact ⟨t, hts, le_of_lt htlt⟩
    rw [hstep]
    exact ih a hw_ts
      (fun j hj hjw => hothers j (List.mem_cons_of_mem i hj) hjw) hlt

/-- Helper: scanning a list of ids that contains the winner, with every
other present datapoint strictly older, records exactly the winner. -/
theorem unlock_scan_foldl_winner (methods : List (Int × String))
    (datapoints : Int → Option TuyaBLEDataPoint)
    (w : Int) (dpw : TuyaBLEDataPoint) (tw : Int)
    (hdpw : datapoints w = some dpw) (htw : dpw.timestamp = some tw) :
    ∀ (L : List Int) (a : UnlockScan),
      (∀ i ∈ L, i ≠ w → ts_below (datapoints i) tw = true) →
      w ∈ L →
      (a.last_time = none ∨ ∃ lt, a.last_time = some lt ∧ lt < tw) →
      L.foldl (unlock_scan_step methods datapoints) a =
        { a with
          last_method := some (unlock_label methods w),
          last_value := pyValOpt dpw.value,
          last_time := some tw } := by
  intro L
  induction L with
  | nil => intro a _ hw _; cases hw
  | cons i rest ih =>
    intro a hothers hw hbefore
    rw [List.foldl_cons]
    by_cases hiw : i = w
    · subst hiw
      rw [unlock_scan_step_take methods datapoints a i dpw tw hdpw htw hbefore]
      exact unlock_scan_foldl_keep methods datapoints i tw rest _
        (fun dp hdp => by
          rw [hdpw] at hdp
          injection hdp with h
          rw [← h]
          exact htw)
        (fun j hj hjw => hothers j (List.mem_cons_of_mem i hj) hjw)
        rfl
    · have hwrest : w ∈ rest := by
        rcases List.mem_cons.mp hw with h | h
        · exact absurd h.symm hiw
        · exact h
      have hinv : (unlock_scan_step methods datapoints a i).last_time = none ∨
          ∃ lt, (unlock_scan_step methods datapoints a i).last_time = some lt ∧
            lt < tw := by
        rcases unlock_scan_step_time methods datapoints a i with
          h | ⟨dp, t, hdp, hts, hres⟩
        · rw [h]
          exact hbefore
        · right
          refine ⟨t, hres, ?_⟩
          have hb := hothers i (List.mem_cons_self i rest) hiw
          rw [hdp] at hb
          obtain ⟨t2, hts2, hlt2⟩ := ts_below_some dp tw hb
          rw [hts] at hts2
          injection hts2 with h2
          rw [h2]
          exact hlt2
      have hvals : (unlock_scan_step methods datapoints a i).last_values
          = a.last_values :=
        unlock_scan_step_values_ts methods datapoints a i (fun dp hdp => by
          by_cases hiw2 : i = w
          · exact absurd hiw2 hiw
          · have hb := hothers i (List.mem_cons_self i rest) hiw
            rw [hdp] at hb
            obtain ⟨t, hts, _⟩ := ts_below_some dp tw hb
            exact ⟨t, hts⟩)
      rw [ih (unlock_scan_step methods datapoints a i)
        (fun j hj hjw => hothers j (List.mem_cons_of_mem i hj) hjw)
        hwrest hinv]
      rw [hvals]


/-- C2: after `TuyaBLELastUnlockSensor._handle_coordinator_update` runs
over a set of unlock-method datapoint ids in which `w` is present with
the strictly greatest timestamp (every other present datapoint carries
a strictly older timestamp), the sensor's native value is the label
mapped to `w`, the extra state attributes record that label and that
datapoint's value, and host state is written. -/
theorem c2_last_unlock_most_recent (methods : List (Int × String))
    (datapoints : Int → Option TuyaBLEDataPoint)
    (s : TuyaBLELastUnlockSensorState)
    (w : Int) (dpw : TuyaBLEDataPoint) (tw : Int)
    (hw : w ∈ methods.map Prod.fst)
    (hdpw : datapoints w = some dpw)
    (htw : dpw.timestamp = some tw)
    (hothers : ∀ i ∈ methods.map Prod.fst, i ≠ w →
      ts_below (datapoints i) tw = true) :
    TuyaBLELastUnlockSensor_handle_coordinator_update methods datapoints s =
      ({ native_value := some (unlock_label methods w),
         extra_state_attributes :=
           some (unlock_label methods w, pyValOpt dpw.value),
         last_values := s.last_values }, true) := by
  unfold TuyaBLELastUnlockSensor_handle_coordinator_update
  rw [unlock_scan_foldl_winner methods datapoints w dpw tw hdpw htw
    (methods.map Prod.fst) { last_values := s.last_values } hothers hw
    (Or.inl rfl)]

/-- Witness for C2 on the shipped unlock-method dict of the `mqc2hevy`
lock: fingerprint (dp 12, timestamp 100) beats BLE (dp 19, timestamp
50). -/
theorem c2_last_unlock_most_recent_witness :
    TuyaBLELastUnlockSensor_handle_coordinator_update
      [ (19, "ble"), (12, "fingerprint"), (62, "phone_remote"),
        (13, "password"), (14, "dynamic"), (55, "temporary"),
        (63, "voice_remote") ]
      (fun i =>
        if i = 19 then
          some { id := 19, type := .DT_STRING, value := .pStr "b1",
                 timestamp := some 50 }
        else if i = 12 then
          some { id := 12, type := .DT_STRING, value := .pStr "finger1",
                 timestamp := some 100 }
        else none)
      { last_values := fun _ => none } =
    ({ native_value := some "fingerprint",
       extra_state_attributes := some ("fingerprint", some (.pStr "finger1")),
       last_values := fun _ => none }, true) := by
  have h := c2_last_unlock_most_recent
    [ (19, "ble"), (12, "fingerprint"), (62, "phone_remote"),
      (13, "password"), (14, "dynamic"), (55, "temporary"),
      (63, "voice_remote") ]
    (fun i =>
      if i = 19 then
        some { id := 19, type := .DT_STRING, value := .pStr "b1",
               timestamp := some 50 }
      else if i = 12 then
        some { id := 12, type := .DT_STRING, value := .pStr "finger1",
               timestamp := some 100 }
      else none)
    { last_values := fun _ => none }
    12 { id := 12, type := .DT_STRING, value := .pStr "finger1",
         timestamp := some 100 } 100
    (by decide) (by decide) (by decide) (by decide)
  simpa [unlock_label, pyValOpt] using h

end TuyaBLE
